import Mathlib

/-!
Shallow embedding of the recommendation pipeline of the boosty_2025_backend
repository, translated from `src/models/RecommendationRequest.js` (which holds
the recommendation router and all of its helper functions).  JavaScript numbers
are modelled as `ℚ`; fallible external calls (database, geocoding, IP lookup)
are modelled by explicit oracle values passed to the functions that consume
them.
-/

namespace Boosty

/-- JS `Math.round`: nearest integer, ties rounded toward positive infinity,
i.e. `Math.round(x) = floor(x + 0.5)`. -/
def jsRound (x : ℚ) : ℤ := ⌊x + 1 / 2⌋

/-- JS `Number.prototype.toFixed(2)` read back as a rational: the value rounded
to two decimal places (nearest, ties toward positive infinity), as used for
`dailyConsumption` at line 560 of `src/models/RecommendationRequest.js`. -/
def toFixed2 (x : ℚ) : ℚ := (jsRound (x * 100) : ℚ) / 100

/-- Is `pat` an initial segment of `l`? -/
def beginsWith : List Char → List Char → Bool
  | _, [] => true
  | [], _ :: _ => false
  | c :: cs, p :: ps => c = p && beginsWith cs ps

/-- Does `pat` occur (contiguously) anywhere inside `l`? -/
def occursInChars (pat : List Char) : List Char → Bool
  | [] => pat.isEmpty
  | c :: rest => beginsWith (c :: rest) pat || occursInChars pat rest

/-- Substring test (JS `String.prototype.includes`). -/
def containsSub (s pat : String) : Bool := occursInChars pat.toList s.toList

/-- Rendering of a rational for interpolated issue messages.  JS number
formatting (`toFixed`, `toLocaleString`) is abbreviated to a plain numeral;
the fixed text around the numbers follows the source verbatim. -/
def ratStr (q : ℚ) : String := toString q

/-- Result object of `analyzeUsagePattern` (lines 19–40).  The `dayUsage` and
`nightUsage` percentage strings are display-only float formatting (undefined,
`NaN%`, when both inputs are zero) and are not modelled; `pattern`,
`totalHours` and `recommendation` are modelled from the source. -/
structure UsageAnalysis where
  pattern : String
  totalHours : ℚ
  recommendation : String
  deriving DecidableEq

/-- `analyzeUsagePattern` (lines 19–40): `pattern` starts as `"Balanced"`, is
set to `"Day-heavy"` when `dayHours > nightHours * 1.5`, else to
`"Night-heavy"` when `nightHours > dayHours * 1.5`. -/
def analyzeUsagePattern (dayHours nightHours : ℚ) : UsageAnalysis :=
  let totalHours := dayHours + nightHours
  let pattern :=
    if dayHours > nightHours * 1.5 then ("Day-heavy")
    else if nightHours > dayHours * 1.5 then ("Night-heavy")
    else ("Balanced")
  { pattern := pattern
    totalHours := totalHours
    recommendation :=
      if pattern = ("Day-heavy") then ("Smaller battery capacity needed")
      else if pattern = ("Night-heavy") then ("Larger battery capacity recommended")
      else ("Standard battery configuration suitable") }

/-- The `pricing` object of an AI recommendation (`subtotal`, `vat`,
`totalAmount`; the `currency` string plays no role in validation). -/
structure Pricing where
  subtotal : ℚ
  vat : ℚ
  totalAmount : ℚ
  deriving DecidableEq

/-- The issues `validatePricing` (lines 319–397) can push, one constructor per
`issues.push(...)` site, carrying the values interpolated into the message. -/
inductive PricingIssue where
  | perWattTooHigh (pricePerWatt : ℚ)
  | perWattTooLow (pricePerWatt : ℚ)
  | tooCheapForConsumption (dailyConsumption : ℚ)
  | costVeryHigh (totalAmount : ℚ)
  | costTooLowForConsumption (totalAmount dailyConsumption : ℚ)
  | belowMinimumViable (totalAmount minimumViable : ℚ)
  | vatIncorrect (vat : ℚ) (expectedVAT : ℤ)
  | totalIncorrect (totalAmount expectedTotal : ℚ)
  deriving DecidableEq

/-- The message text of each pricing issue, fixed wording from the source
(numeric holes rendered by `ratStr`). -/
def pricingIssueText : PricingIssue → String
  | PricingIssue.perWattTooHigh p =>
      ("Price per watt too high: ₦") ++ ratStr p ++ ("/watt (recommended: ₦1,200-₦2,800/watt)")
  | PricingIssue.perWattTooLow p =>
      ("Price per watt too low: ₦") ++ ratStr p ++ ("/watt (minimum quality threshold: ₦1,000/watt)")
  | PricingIssue.tooCheapForConsumption dc =>
      ("System price may be too low for ") ++ ratStr dc ++ (" kWh daily consumption - quality components needed")
  | PricingIssue.costVeryHigh amt =>
      ("System cost very high: ₦") ++ ratStr amt ++ (" (typical residential: ₦2.5M-₦12M)")
  | PricingIssue.costTooLowForConsumption amt dc =>
      ("System cost seems too low: ₦") ++ ratStr amt ++ (" for ") ++ ratStr dc ++ (" kWh daily consumption")
  | PricingIssue.belowMinimumViable amt mv =>
      ("System cost too low: ₦") ++ ratStr amt ++ (" (minimum viable: ₦") ++ ratStr mv ++ (")")
  | PricingIssue.vatIncorrect v e =>
      ("VAT calculation incorrect: ₦") ++ ratStr v ++ (" (expected: ₦") ++ toString e ++ (")")
  | PricingIssue.totalIncorrect t e =>
      ("Total amount calculation incorrect: ₦") ++ ratStr t ++ (" (expected: ₦") ++ ratStr e ++ (")")

/-- The issue list collected by `validatePricing` (lines 319–385), in source
order.  `dailyConsumption` is the `parseFloat` of the string the route passes
in, modelled directly as a rational. -/
def pricingIssues (pricing : Pricing) (totalWattage dailyConsumption : ℚ) : List PricingIssue :=
  let pricePerWatt := pricing.totalAmount / totalWattage
  let minimumViableSystemCost := max 1500000 (totalWattage * 1000)
  let expectedVAT := jsRound (pricing.subtotal * 0.075)
  let expectedTotal := pricing.subtotal + pricing.vat
  (if pricePerWatt > 3000 then [PricingIssue.perWattTooHigh pricePerWatt] else []) ++
  (if pricePerWatt < 1000 then [PricingIssue.perWattTooLow pricePerWatt] else []) ++
  (if pricePerWatt < 1200 ∧ dailyConsumption > 30 then
    [PricingIssue.tooCheapForConsumption dailyConsumption] else []) ++
  (if pricing.totalAmount > 12000000 then [PricingIssue.costVeryHigh pricing.totalAmount] else []) ++
  (if pricing.totalAmount < 2000000 ∧ dailyConsumption > 25 then
    [PricingIssue.costTooLowForConsumption pricing.totalAmount dailyConsumption] else []) ++
  (if pricing.totalAmount < minimumViableSystemCost then
    [PricingIssue.belowMinimumViable pricing.totalAmount minimumViableSystemCost] else []) ++
  (if |pricing.vat - (expectedVAT : ℚ)| > 1000 then
    [PricingIssue.vatIncorrect pricing.vat expectedVAT] else []) ++
  (if |pricing.totalAmount - expectedTotal| > 1000 then
    [PricingIssue.totalIncorrect pricing.totalAmount expectedTotal] else [])

/-- Return value of `validatePricing`. -/
structure PricingValidation where
  valid : Bool
  issues : List PricingIssue
  pricing : Pricing
  deriving DecidableEq

/-- `validatePricing` (lines 319–397): collect the issues; valid iff none. -/
def validatePricing (pricing : Pricing) (totalWattage dailyConsumption : ℚ) : PricingValidation :=
  let issues := pricingIssues pricing totalWattage dailyConsumption
  if issues.length > 0 then ⟨false, issues, pricing⟩ else ⟨true, [], pricing⟩

/-- A component of a recommendation; only `name` and `quantity` are read by
the validator (`warranty`/`imageUrl` are passed through untouched). -/
structure Component where
  name : String
  quantity : ℚ
  deriving DecidableEq

/-- The `components` object of a recommendation. -/
structure Components where
  inverter : Component
  battery : Component
  solarPanels : Component
  deriving DecidableEq

/-- An AI recommendation as far as `validateRecommendation` inspects it. -/
structure Recommendation where
  components : Components
  deriving DecidableEq

/-- Numeric value of a decimal digit character. -/
def digitVal (c : Char) : ℕ := c.toNat - 48

/-- Natural number denoted by a list of decimal digit characters. -/
def digitsToNat (ds : List Char) : ℕ := ds.foldl (fun n c => n * 10 + digitVal c) 0

/-- `parseFloat` of a capture of the form `digits` or `digits.digits`. -/
def decimalValue (intPart fracPart : List Char) : ℚ :=
  (digitsToNat intPart : ℚ) + (digitsToNat fracPart : ℚ) / (10 : ℚ) ^ fracPart.length

/-- Attempt to match the regex `/(\d+(?:\.\d+)?)\s*kw/i` (line 409) anchored at
the start of `s`, returning `parseFloat` of capture group 1 on success.  The
only backtracking choice point of this pattern (fraction present or absent)
collapses: if a matched fraction is followed by a failure, the retry without it
faces a `.` where `\s*kw` must match and fails as well, so a greedy
deterministic scan is exact.  Returns the integer and fractional digit lists of
capture group 1. -/
def matchKwAt (s : List Char) : Option (List Char × List Char) :=
  let intPart := s.takeWhile Char.isDigit
  let afterInt := s.dropWhile Char.isDigit
  if intPart.isEmpty then none
  else
    let fracPart :=
      match afterInt with
      | '.' :: t => t.takeWhile Char.isDigit
      | _ => []
    let afterNum :=
      match afterInt with
      | '.' :: t => if (t.takeWhile Char.isDigit).isEmpty then afterInt else t.dropWhile Char.isDigit
      | _ => afterInt
    let afterSpace := afterNum.dropWhile Char.isWhitespace
    match afterSpace with
    | k :: w :: _ =>
      if (k = 'k' ∨ k = 'K') ∧ (w = 'w' ∨ w = 'W') then some (intPart, fracPart)
      else none
    | _ => none

/-- Leftmost match of `/(\d+(?:\.\d+)?)\s*kw/i` over a character list
(JS `String.prototype.match` with a non-global regex), as the digit lists of
capture group 1. -/
def findKwMatch : List Char → Option (List Char × List Char)
  | [] => none
  | c :: rest =>
    match matchKwAt (c :: rest) with
    | some capture => some capture
    | none => findKwMatch rest

/-- The issues `validateRecommendation` (lines 400–467) can push, one
constructor per `issues.push(...)` site. -/
inductive ComponentIssue where
  | inverterUndersized (inverterCapacityW totalWattage : ℚ)
  | inverterOversized (inverterCapacityW totalWattage : ℚ)
  | tooManyBatteries (batteryQuantity : ℚ) (maxReasonable : ℤ) (dailyConsumption : ℚ)
  | excessiveBatteries (batteryQuantity : ℚ)
  | tooManyPanels (panelQuantity : ℚ) (maxReasonable : ℤ) (dailyConsumption : ℚ)
  | excessivePanels (panelQuantity : ℚ)
  deriving DecidableEq

/-- Inverter sizing check of `validateRecommendation` (lines 408–424): only
performed when the inverter name matches the kW pattern. -/
def inverterIssuesOf (name : String) (totalWattage : ℚ) : List ComponentIssue :=
  match findKwMatch name.toList with
  | some capture =>
    let inverterCapacityW := decimalValue capture.1 capture.2 * 1000
    if inverterCapacityW < totalWattage * 1.2 then
      [ComponentIssue.inverterUndersized inverterCapacityW totalWattage]
    else if inverterCapacityW > totalWattage * 2.0 then
      [ComponentIssue.inverterOversized inverterCapacityW totalWattage]
    else []
  | none => []

/-- Battery quantity checks of `validateRecommendation` (lines 427–440). -/
def batteryIssuesOf (batteryQuantity dailyConsumption : ℚ) : List ComponentIssue :=
  let maxReasonableBatteries := ⌈dailyConsumption * 1.5 / 2.5⌉
  (if batteryQuantity > (maxReasonableBatteries : ℚ) then
    [ComponentIssue.tooManyBatteries batteryQuantity maxReasonableBatteries dailyConsumption] else []) ++
  (if batteryQuantity > 25 then [ComponentIssue.excessiveBatteries batteryQuantity] else [])

/-- Solar panel quantity checks of `validateRecommendation` (lines 443–456). -/
def panelIssuesOf (panelQuantity dailyConsumption : ℚ) : List ComponentIssue :=
  let maxReasonablePanels := ⌈dailyConsumption * 1.8 * 1000 / 400⌉
  (if panelQuantity > (maxReasonablePanels : ℚ) then
    [ComponentIssue.tooManyPanels panelQuantity maxReasonablePanels dailyConsumption] else []) ++
  (if panelQuantity > 30 then [ComponentIssue.excessivePanels panelQuantity] else [])

/-- All issues collected by `validateRecommendation`, in source order. -/
def componentIssues (recommendation : Recommendation) (totalWattage dailyConsumption : ℚ) :
    List ComponentIssue :=
  inverterIssuesOf recommendation.components.inverter.name totalWattage ++
  batteryIssuesOf recommendation.components.battery.quantity dailyConsumption ++
  panelIssuesOf recommendation.components.solarPanels.quantity dailyConsumption

/-- Return value of `validateRecommendation`. -/
structure ComponentValidation where
  valid : Bool
  issues : List ComponentIssue
  recommendation : Recommendation
  deriving DecidableEq

/-- `validateRecommendation` (lines 400–467): collect the issues; valid iff
none. -/
def validateRecommendation (recommendation : Recommendation) (totalWattage dailyConsumption : ℚ) :
    ComponentValidation :=
  let issues := componentIssues recommendation totalWattage dailyConsumption
  if issues.length > 0 then ⟨false, issues, recommendation⟩ else ⟨true, [], recommendation⟩

/-- `recommendedInverterCapacity` (line 566): `Math.ceil(totalWattage * 1.3 / 1000)` kW. -/
def recommendedInverterCapacity (totalWattage : ℚ) : ℤ := ⌈totalWattage * 1.3 / 1000⌉

/-- `recommendedBatteryCount` (lines 567–569): `Math.ceil(dailyConsumption * 1.2 / 3.5)`. -/
def recommendedBatteryCount (dailyConsumption : ℚ) : ℤ := ⌈dailyConsumption * 1.2 / 3.5⌉

/-- `recommendedPanelCount` (lines 570–572): `Math.ceil(dailyConsumption * 1.5 * 1000 / 450)`. -/
def recommendedPanelCount (dailyConsumption : ℚ) : ℤ := ⌈dailyConsumption * 1.5 * 1000 / 450⌉

/-- The component quantities interpolated into the JSON template of the prompt
(battery at line 642, panels at line 648). -/
structure PromptQuantities where
  batteryQuantity : ℤ
  panelQuantity : ℤ
  deriving DecidableEq

/-- Quantities the prompt asks the generative model to use:
`Math.min(recommendedBatteryCount, 16)` and `Math.min(recommendedPanelCount, 20)`. -/
def promptQuantities (dailyConsumption : ℚ) : PromptQuantities :=
  ⟨min (recommendedBatteryCount dailyConsumption) 16,
   min (recommendedPanelCount dailyConsumption) 20⟩

/-- One step of `saveRecommendationToHistory` on the stored list (lines
901–904): `push(entry)` then, when the length exceeds 10, `shift()` (drop the
first, i.e. oldest, element). -/
def saveToHistory {α : Type} (history : List α) (entry : α) : List α :=
  let pushed := history ++ [entry]
  if pushed.length > 10 then pushed.tail else pushed

/-- One appliance entry after numeric coercion (`Number(...)`), as consumed by
the load calculation (lines 548–563). -/
structure Item where
  nameOfItem : String
  quantity : ℚ
  wattage : ℚ
  dayHours : ℚ
  nightHours : ℚ
  deriving DecidableEq

/-- `totalWattage` (lines 548–551): reduce with `sum + wattage * quantity`, seed 0. -/
def totalWattageOf (items : List Item) : ℚ :=
  items.foldl (fun sum item => sum + item.wattage * item.quantity) 0

/-- `totalDayHours` (lines 552–555). -/
def totalDayHoursOf (items : List Item) : ℚ :=
  items.foldl (fun sum item => sum + item.dayHours) 0

/-- `totalNightHours` (lines 556–559). -/
def totalNightHoursOf (items : List Item) : ℚ :=
  items.foldl (fun sum item => sum + item.nightHours) 0

/-- `dailyConsumption` (lines 560–563): `(totalWattage * (totalDayHours +
totalNightHours) / 1000).toFixed(2)`, read back as a rational. -/
def dailyConsumptionOf (items : List Item) : ℚ :=
  toFixed2 (totalWattageOf items * (totalDayHoursOf items + totalNightHoursOf items) / 1000)

/-- JS `a || b` on optional strings (empty string is falsy). -/
def jsOrS (a b : Option String) : Option String :=
  match a with
  | some s => if s = ("") then b else some s
  | none => b

/-- JS `a || d` on an optional string with a plain-string default. -/
def jsOrD (a : Option String) (d : String) : String :=
  match a with
  | some s => if s = ("") then d else s
  | none => d

/-- `if (x) parts.push(x)` for an optional string (pushed only when truthy). -/
def pushIfTruthy (o : Option String) : List String :=
  match o with
  | some s => if s = ("") then [] else [s]
  | none => []

/-- The `address` object of a Nominatim reverse-geocoding response (the fields
read at lines 189–216). -/
structure NominatimAddress where
  house_number : Option String
  road : Option String
  neighbourhood : Option String
  suburb : Option String
  city : Option String
  town : Option String
  village : Option String
  state : Option String
  country : Option String
  postcode : Option String
  deriving DecidableEq

/-- The `addressComponents` object built by the location code. -/
structure AddressComponents where
  street : Option String
  neighbourhood : Option String
  city : String
  state : String
  country : String
  postcode : Option String
  deriving DecidableEq

/-- A location object as it flows through `getLocationData` /
`enhanceLocationWithAddress`; optional fields are absent (`none`) on the base
locations and filled by enrichment. -/
structure ResolvedLocation where
  country : String
  region : String
  city : String
  lat : ℚ
  lon : ℚ
  timezone : String
  district : Option String
  isp : Option String
  fullAddress : Option String
  addressComponents : Option AddressComponents
  addressSource : Option String
  addressAccuracy : Option String
  deriving DecidableEq

/-- `generateFallbackAddress` (lines 259–268): join the truthy fields with
commas, or the fixed fallback text when all are absent. -/
def generateFallbackAddress (location : ResolvedLocation) : String :=
  let parts := pushIfTruthy location.district ++ pushIfTruthy (some location.city) ++
    pushIfTruthy (some location.region) ++ pushIfTruthy (some location.country)
  let joined := String.intercalate (", ") parts
  if joined = ("") then ("Address not available") else joined

/-- The estimated-address fallback object of `enhanceLocationWithAddress`
(lines 226–242). -/
def estimatedEnrichment (base : ResolvedLocation) : ResolvedLocation :=
  { base with
    fullAddress := some (generateFallbackAddress base)
    addressComponents := some
      { street := none
        neighbourhood := none
        city := base.city
        state := base.region
        country := base.country
        postcode := none }
    addressSource := some ("estimated")
    addressAccuracy := some ("city-level") }

/-- `enhanceLocationWithAddress` (lines 169–256).  `geocode` is the outcome of
the Nominatim reverse-geocoding call: `some addr` when the request returned an
`address` object, `none` for any failure (timeout, error, missing field). -/
def enhanceLocationWithAddress (base : ResolvedLocation) (geocode : Option NominatimAddress) :
    ResolvedLocation :=
  if jsOrD base.fullAddress ("") ≠ ("") then base
  else if base.lat ≠ 0 ∧ base.lon ≠ 0 then
    match geocode with
    | some addr =>
      let cityOpt := jsOrS (jsOrS addr.city addr.town) addr.village
      let addressComponents := pushIfTruthy addr.house_number ++ pushIfTruthy addr.road ++
        pushIfTruthy addr.neighbourhood ++ pushIfTruthy addr.suburb ++
        pushIfTruthy cityOpt ++ pushIfTruthy addr.state
      let approximateAddress := String.intercalate (", ") addressComponents
      { base with
        fullAddress := some approximateAddress
        addressComponents := some
          { street := addr.road
            neighbourhood := jsOrS addr.neighbourhood addr.suburb
            city := jsOrD cityOpt base.city
            state := jsOrD addr.state base.region
            country := jsOrD addr.country base.country
            postcode := addr.postcode }
        addressSource := some ("nominatim")
        addressAccuracy := some ("approximate") }
    | none => estimatedEnrichment base
  else estimatedEnrichment base

/-- Stored coordinates on a stored user address document. -/
structure Coordinates where
  lat : ℚ
  lon : ℚ
  deriving DecidableEq

/-- A stored user address as read by `getLocationData` (lines 81–104). -/
structure StoredAddress where
  street : Option String
  neighbourhood : Option String
  city : String
  state : String
  country : String
  postcode : Option String
  fullAddress : String
  coordinates : Option Coordinates
  deriving DecidableEq

/-- Outcome of the `User.findById(req.user.id).select("address")` call. -/
inductive DbLookup where
  | found (address : Option StoredAddress)
  | missing
  | failure
  deriving DecidableEq

/-- The fields of a successful `ip-api.com` response read at lines 136–146. -/
structure IpApiData where
  success : Bool
  country : String
  regionName : String
  city : String
  lat : ℚ
  lon : ℚ
  timezone : String
  district : Option String
  isp : Option String
  deriving DecidableEq

/-- The request data `getLocationData` reads: optional `req.body.location`,
whether an authenticated user id is attached, and the caller IP (the
`req.ip || req.connection.remoteAddress || "127.0.0.1"` chain collapsed to the
resulting string). -/
structure LocationRequest where
  bodyLocation : Option ResolvedLocation
  authenticatedUserId : Option String
  ip : String
  deriving DecidableEq

/-- Outcomes of the external calls `getLocationData` can make. -/
structure LocationOracles where
  db : DbLookup
  geocode : Option NominatimAddress
  ipApi : Option IpApiData
  deriving DecidableEq

/-- The hardcoded default location (lines 121–128 and 155–162, identical). -/
def defaultLagosLocation : ResolvedLocation :=
  { country := ("Nigeria")
    region := ("Lagos")
    city := ("Lagos")
    lat := 6.5244
    lon := 3.3792
    timezone := ("Africa/Lagos")
    district := none
    isp := none
    fullAddress := none
    addressComponents := none
    addressSource := none
    addressAccuracy := none }

/-- The location built verbatim from a stored user address (lines 86–104). -/
def userLocationOf (addr : StoredAddress) (coords : Coordinates) : ResolvedLocation :=
  { country := addr.country
    region := addr.state
    city := addr.city
    lat := coords.lat
    lon := coords.lon
    timezone := ("Africa/Lagos")
    district := none
    isp := none
    fullAddress := some addr.fullAddress
    addressComponents := some
      { street := addr.street
        neighbourhood := addr.neighbourhood
        city := addr.city
        state := addr.state
        country := addr.country
        postcode := addr.postcode }
    addressSource := some ("user_stored")
    addressAccuracy := some ("exact") }

/-- PRIORITY 3 of `getLocationData` (lines 115–165): loopback IPs short-circuit
to the default location; otherwise the IP API is consulted, any failure
(including an unsuccessful status, which throws into the outer catch) falling
back to the same default; every branch passes through address enrichment. -/
def ipPhase (req : LocationRequest) (o : LocationOracles) : ResolvedLocation :=
  if req.ip = ("127.0.0.1") ∨ req.ip = ("::1") ∨ containsSub req.ip ("127.0.0.1") then
    enhanceLocationWithAddress defaultLagosLocation o.geocode
  else
    match o.ipApi with
    | some d =>
      if d.success then
        enhanceLocationWithAddress
          { country := d.country
            region := d.regionName
            city := d.city
            lat := d.lat
            lon := d.lon
            timezone := d.timezone
            district := d.district
            isp := d.isp
            fullAddress := none
            addressComponents := none
            addressSource := none
            addressAccuracy := none } o.geocode
      else enhanceLocationWithAddress defaultLagosLocation o.geocode
    | none => enhanceLocationWithAddress defaultLagosLocation o.geocode

/-- `getLocationData` (lines 70–166): body location first, then the stored
address of an authenticated user when it carries coordinates (any database
miss or failure falls through), then the IP phase. -/
def getLocationData (req : LocationRequest) (o : LocationOracles) : ResolvedLocation :=
  match req.bodyLocation with
  | some loc => enhanceLocationWithAddress loc o.geocode
  | none =>
    match req.authenticatedUserId with
    | some _ =>
      match o.db with
      | DbLookup.found (some addr) =>
        match addr.coordinates with
        | some coords => userLocationOf addr coords
        | none => ipPhase req o
      | _ => ipPhase req o
    | none => ipPhase req o

/-- A JavaScript value as it matters for the truthiness checks of the route
(`NaN` and object values are not needed for the modelled claims). -/
inductive JSVal where
  | num (q : ℚ)
  | str (s : String)
  | boolean (b : Bool)
  | null
  | undefined
  deriving DecidableEq

/-- JS truthiness: `0`, the empty string, `false`, `null` and `undefined` are
falsy. -/
def JSVal.truthy : JSVal → Bool
  | JSVal.num q => decide (q ≠ 0)
  | JSVal.str s => decide (s ≠ (""))
  | JSVal.boolean b => b
  | JSVal.null => false
  | JSVal.undefined => false

/-- An element of `req.body.items` before any validation. -/
structure RawItem where
  nameOfItem : JSVal
  quantity : JSVal
  wattage : JSVal
  dayHours : JSVal
  nightHours : JSVal
  deriving DecidableEq

/-- The per-item completeness test of the route (lines 527–541): every one of
the five fields must be truthy. -/
def itemComplete (i : RawItem) : Bool :=
  i.nameOfItem.truthy && i.quantity.truthy && i.wattage.truthy &&
  i.dayHours.truthy && i.nightHours.truthy

/-- The `items` value of the request body: absent, a single (truthy) object,
or an array. -/
inductive BodyItems where
  | missing
  | one (item : RawItem)
  | many (items : List RawItem)
  deriving DecidableEq

/-- External work the remainder of the handler performs after input
validation. -/
inductive Effect where
  | locationLookup
  | weatherLookup
  | aiCall
  deriving DecidableEq

/-- Outcome of the recommendation route: HTTP status, response message, and
the external effects performed while producing it. -/
structure RouteOutcome where
  status : ℕ
  message : String
  effects : List Effect
  deriving DecidableEq

/-- Error message of the empty-input check (lines 515–520). -/
def itemsRequiredMsg : String := ("Items are required")

/-- Error message of the per-item check (lines 535–540). -/
def itemIncompleteMsg : String :=
  ("Each item must have nameOfItem, quantity, wattage, dayHours, and nightHours")

/-- The per-item validation loop of the route (lines 527–541) followed by the
rest of the handler, which is abstracted as a continuation `rest` (it performs
the location, weather and AI work and is never reached when validation
fails). -/
def recommendPostItems (items : List RawItem) (rest : List RawItem → RouteOutcome) :
    RouteOutcome :=
  if items.all itemComplete then rest items
  else ⟨400, itemIncompleteMsg, []⟩

/-- `router.post("/")` input validation (lines 508–541): missing or empty
`items` yields 400; a lone object is wrapped into a one-element array; then
every item must be complete before any external work starts. -/
def recommendPost (body : BodyItems) (rest : List RawItem → RouteOutcome) : RouteOutcome :=
  match body with
  | BodyItems.missing => ⟨400, itemsRequiredMsg, []⟩
  | BodyItems.one item => recommendPostItems [item] rest
  | BodyItems.many items =>
    if items.isEmpty then ⟨400, itemsRequiredMsg, []⟩
    else recommendPostItems items rest

/-- Modelled from the spec: the `ApplianceEntry` data model of §3 declares
`dayHours: number[0,24]` and `nightHours: number[0,24]` (the schema file
itself is not under `src/`), so the value 0 is within the admissible range. -/
def hoursInModelRange (q : ℚ) : Bool := decide (0 ≤ q) && decide (q ≤ 24)

/-- The stored-address-with-coordinates data `getLocationData` would use at
PRIORITY 2, when it exists. -/
def storedCoordsOf (req : LocationRequest) (o : LocationOracles) :
    Option (StoredAddress × Coordinates) :=
  match req.authenticatedUserId with
  | some _ =>
    match o.db with
    | DbLookup.found (some addr) =>
      match addr.coordinates with
      | some c => some (addr, c)
      | none => none
    | _ => none
  | none => none

/-- Example recommendation: 40 solar panels, with inverter and battery sized
to raise no other issue at a 3000 W load and 10 kWh/day. -/
def panels40Rec : Recommendation :=
  ⟨⟨⟨("Felicity 5kw Hybrid Inverter"), 1⟩, ⟨("Quanta 200Ah Battery"), 5⟩,
    ⟨("Jinko 450W Panel"), 40⟩⟩⟩

/-- Example recommendation whose inverter name parses as 18 kW. -/
def inverter18Rec : Recommendation :=
  ⟨⟨⟨("SolarMax 18kw Hybrid Inverter"), 1⟩, ⟨("Quanta 200Ah Battery"), 10⟩,
    ⟨("Jinko 450W Panel"), 20⟩⟩⟩

/-- Example recommendation whose inverter capacity is written in KVA, which
the kW pattern does not match. -/
def fiveKvaRec : Recommendation :=
  ⟨⟨⟨("Luminous 5KVA Pure Sine Wave Inverter"), 1⟩, ⟨("Trojan 150Ah Battery"), 10⟩,
    ⟨("Canadian Solar 450W Panel"), 20⟩⟩⟩

end Boosty

namespace Boosty

theorem mem_iteSingleton {α : Type} {a b : α} {c : Prop} [Decidable c] :
    a ∈ (if c then [b] else []) ↔ c ∧ a = b := by
  split
  · next h => simp [h]
  · next h => simp [h]

theorem iteSingleton_eq_nil {α : Type} {b : α} {c : Prop} [Decidable c] :
    (if c then [b] else []) = ([] : List α) ↔ ¬ c := by
  split
  · next h => simp [h]
  · next h => simp [h]

theorem foldl_add_map {α : Type} (f : α → ℚ) (l : List α) (a : ℚ) :
    l.foldl (fun s x => s + f x) a = a + (l.map f).sum := by
  induction l generalizing a with
  | nil => simp
  | cons x xs ih => simp [ih, add_assoc]

theorem saveToHistory_length {α : Type} (h : List α) (e : α) (hle : h.length ≤ 10) :
    (saveToHistory h e).length = min (h.length + 1) 10 := by
  have heq : saveToHistory h e = if (h ++ [e]).length > 10 then (h ++ [e]).tail else h ++ [e] := rfl
  rw [heq]
  split
  · next hgt =>
    simp only [List.length_tail, List.length_append, List.length_singleton] at hgt ⊢
    omega
  · next hgt =>
    simp only [List.length_append, List.length_singleton] at hgt ⊢
    omega

theorem foldl_saveToHistory_length {α : Type} (es : List α) (acc : List α)
    (hacc : acc.length ≤ 10) :
    (es.foldl saveToHistory acc).length = min (acc.length + es.length) 10 := by
  induction es generalizing acc with
  | nil => simp; omega
  | cons e rest ih =>
    rw [List.foldl_cons]
    rw [ih (saveToHistory acc e) (by rw [saveToHistory_length acc e hacc]; omega)]
    rw [saveToHistory_length acc e hacc]
    simp only [List.length_cons]
    omega

/-- C5: starting from an empty history, n sequential saves leave min(n, 10)
entries, and a save onto a full log drops the first (oldest) entry — FIFO. -/
theorem recommendationHistory_bounded_fifo :
    (∀ (α : Type) (es : List α), (es.foldl saveToHistory []).length = min es.length 10) ∧
    (∀ (α : Type) (h : List α) (e : α), 10 ≤ h.length →
      saveToHistory h e = h.tail ++ [e]) := by
  constructor
  · intro α es
    rw [foldl_saveToHistory_length es [] (by simp)]
    simp
  · intro α h e hlen
    have heq : saveToHistory h e = if (h ++ [e]).length > 10 then (h ++ [e]).tail else h ++ [e] := rfl
    rw [heq]
    have hne : h ≠ [] := by intro hnil; rw [hnil] at hlen; simp at hlen
    rw [if_pos (by simp only [List.length_append, List.length_singleton]; omega)]
    cases h with
    | nil => exact absurd rfl hne
    | cons x xs => simp

/-- C5 witness: fifteen saves leave exactly ten entries, and a save onto a
ten-entry log evicts the head. -/
theorem recommendationHistory_bounded_fifo_witness :
    ((List.range 15).foldl saveToHistory ([] : List ℕ)).length = 10 ∧
    saveToHistory (List.range 10) 99 = (List.range 10).tail ++ [99] := by
  constructor
  · have h := recommendationHistory_bounded_fifo.1 ℕ (List.range 15)
    simpa using h
  · exact recommendationHistory_bounded_fifo.2 ℕ (List.range 10) 99 (by simp)

end Boosty

namespace Boosty

theorem analyzeUsagePattern_pattern (d n : ℚ) :
    (analyzeUsagePattern d n).pattern =
      (if d > n * 1.5 then ("Day-heavy")
       else if n > d * 1.5 then ("Night-heavy") else ("Balanced")) := rfl

/-- C6 counterexample: at `(-10, -10)` (reachable, since the truthiness check of the
route lets negative hour values through) `totalNightHours > totalDayHours * 1.5`
holds, yet the classification is `"Day-heavy"`, not `"Night-heavy"`: the
claimed characterisation "Night-heavy iff nightHours > dayHours * 1.5" is
false on the code. -/
theorem analyzeUsagePattern_negative_cex :
    ((-10 : ℚ)) > (-10 : ℚ) * 1.5 ∧
    (analyzeUsagePattern (-10) (-10)).pattern = ("Day-heavy") ∧
    ¬ (analyzeUsagePattern (-10) (-10)).pattern = ("Night-heavy") := by
  have hc : ((-10 : ℚ)) > (-10 : ℚ) * 1.5 := by norm_num
  have hp : (analyzeUsagePattern (-10) (-10)).pattern = ("Day-heavy") := by
    rw [analyzeUsagePattern_pattern, if_pos hc]
  refine ⟨hc, hp, ?_⟩
  rw [hp]
  decide

/-- C6 amended: for nonnegative hour totals the classification is
`"Day-heavy"` iff `day > night * 1.5`, `"Night-heavy"` iff
`night > day * 1.5`, and `"Balanced"` otherwise; with the three examples of
the claim. -/
theorem analyzeUsagePattern_nonneg_spec :
    (∀ d n : ℚ, 0 ≤ d → 0 ≤ n →
      ((analyzeUsagePattern d n).pattern = ("Day-heavy") ↔ d > n * 1.5) ∧
      ((analyzeUsagePattern d n).pattern = ("Night-heavy") ↔ n > d * 1.5) ∧
      ((analyzeUsagePattern d n).pattern = ("Balanced") ↔ ¬ d > n * 1.5 ∧ ¬ n > d * 1.5)) ∧
    (analyzeUsagePattern 10 2).pattern = ("Day-heavy") ∧
    (analyzeUsagePattern 2 10).pattern = ("Night-heavy") ∧
    (analyzeUsagePattern 5 5).pattern = ("Balanced") := by
  refine ⟨fun d n hd hn => ?_, ?_, ?_, ?_⟩
  · rw [analyzeUsagePattern_pattern]
    by_cases h1 : d > n * 1.5
    · have h2 : ¬ n > d * 1.5 := by intro h2; nlinarith
      simp [h1, h2]
    · by_cases h2 : n > d * 1.5
      · simp [h1, h2]
      · simp [h1, h2]
  · rw [analyzeUsagePattern_pattern]; norm_num
  · rw [analyzeUsagePattern_pattern]; norm_num
  · rw [analyzeUsagePattern_pattern]; norm_num

/-- C6 amended witness: the characterisation applied at `(10, 2)`. -/
theorem analyzeUsagePattern_nonneg_spec_witness :
    (analyzeUsagePattern 10 2).pattern = ("Day-heavy") ↔ (10 : ℚ) > 2 * 1.5 := by
  exact (analyzeUsagePattern_nonneg_spec.1 10 2 (by norm_num) (by norm_num)).1

/-- C7: the load calculation computes the claimed sums, the daily consumption
is the rounded product formula, and recomputation on the same input yields the
same value (the computation is a pure function). -/
theorem loadCalculation_sums : ∀ items : List Item, items ≠ [] →
    totalWattageOf items = (items.map (fun i => i.wattage * i.quantity)).sum ∧
    totalDayHoursOf items = (items.map Item.dayHours).sum ∧
    totalNightHoursOf items = (items.map Item.nightHours).sum ∧
    dailyConsumptionOf items =
      toFixed2 (totalWattageOf items * (totalDayHoursOf items + totalNightHoursOf items) / 1000) ∧
    dailyConsumptionOf items = dailyConsumptionOf items := by
  intro items _
  refine ⟨?_, ?_, ?_, rfl, rfl⟩
  · rw [totalWattageOf, foldl_add_map (fun i => i.wattage * i.quantity) items 0, zero_add]
  · rw [totalDayHoursOf, foldl_add_map Item.dayHours items 0, zero_add]
  · rw [totalNightHoursOf, foldl_add_map Item.nightHours items 0, zero_add]

/-- C7 witness: the sums evaluated on the one-appliance list of the end-to-end scenario of the
spec. -/
theorem loadCalculation_sums_witness :
    totalWattageOf [⟨("Fridge"), 1, 150, 12, 12⟩] =
      ([⟨("Fridge"), 1, 150, 12, 12⟩].map (fun i : Item => i.wattage * i.quantity)).sum ∧
    totalDayHoursOf [⟨("Fridge"), 1, 150, 12, 12⟩] =
      ([⟨("Fridge"), 1, 150, 12, 12⟩].map Item.dayHours).sum := by
  have h := loadCalculation_sums [⟨("Fridge"), 1, 150, 12, 12⟩] (by simp)
  exact ⟨h.1, h.2.1⟩

end Boosty

namespace Boosty

theorem validatePricing_def (p : Pricing) (tw dc : ℚ) :
    validatePricing p tw dc =
      (if (pricingIssues p tw dc).length > 0
       then ⟨false, pricingIssues p tw dc, p⟩
       else ⟨true, [], p⟩) := rfl

theorem validatePricing_issues (p : Pricing) (tw dc : ℚ) :
    (validatePricing p tw dc).issues = pricingIssues p tw dc := by
  rw [validatePricing_def]
  split
  · rfl
  · next h =>
    have h0 : (pricingIssues p tw dc).length = 0 := by omega
    rw [List.length_eq_zero] at h0
    simp [h0]

theorem validatePricing_valid_iff (p : Pricing) (tw dc : ℚ) :
    (validatePricing p tw dc).valid = true ↔ pricingIssues p tw dc = [] := by
  rw [validatePricing_def]
  split
  · next h =>
    simp only [show (⟨false, pricingIssues p tw dc, p⟩ : PricingValidation).valid = false from rfl]
    constructor
    · intro hh; cases hh
    · intro hnil; rw [hnil] at h; simp at h
  · next h =>
    have h0 : (pricingIssues p tw dc).length = 0 := by omega
    rw [List.length_eq_zero] at h0
    simp [h0]

theorem validatePricing_valid_false_of_mem {i : PricingIssue} {p : Pricing} {tw dc : ℚ}
    (h : i ∈ pricingIssues p tw dc) : (validatePricing p tw dc).valid = false := by
  rw [validatePricing_def, if_pos (List.length_pos.mpr (List.ne_nil_of_mem h))]

theorem pricingIssues_eq_nil (p : Pricing) (tw dc : ℚ) :
    pricingIssues p tw dc = [] ↔
      ¬ p.totalAmount / tw > 3000 ∧ ¬ p.totalAmount / tw < 1000 ∧
      ¬ (p.totalAmount / tw < 1200 ∧ dc > 30) ∧ ¬ p.totalAmount > 12000000 ∧
      ¬ (p.totalAmount < 2000000 ∧ dc > 25) ∧
      ¬ p.totalAmount < max 1500000 (tw * 1000) ∧
      ¬ |p.vat - (jsRound (p.subtotal * 0.075) : ℚ)| > 1000 ∧
      ¬ |p.totalAmount - (p.subtotal + p.vat)| > 1000 := by
  simp only [pricingIssues, List.append_eq_nil, iteSingleton_eq_nil, and_assoc]

theorem beginsWith_append (pat l t : List Char) (h : beginsWith l pat = true) :
    beginsWith (l ++ t) pat = true := by
  induction pat generalizing l with
  | nil => cases hlt : l ++ t <;> simp [beginsWith]
  | cons p ps ih =>
    cases l with
    | nil => simp [beginsWith] at h
    | cons c cs =>
      rw [List.cons_append]
      simp only [beginsWith, Bool.and_eq_true] at h ⊢
      exact ⟨h.1, ih cs h.2⟩

theorem occursInChars_nil (t : List Char) : occursInChars [] t = true := by
  cases t <;> simp [occursInChars, beginsWith]

theorem occursInChars_append_left (pat l t : List Char) (h : occursInChars pat l = true) :
    occursInChars pat (l ++ t) = true := by
  induction l with
  | nil =>
    simp only [occursInChars, List.isEmpty_iff] at h
    rw [h, List.nil_append]
    exact occursInChars_nil t
  | cons c cs ih =>
    rw [List.cons_append]
    simp only [occursInChars, Bool.or_eq_true] at h ⊢
    cases h with
    | inl hb =>
      have := beginsWith_append pat (c :: cs) t hb
      rw [List.cons_append] at this
      exact Or.inl this
    | inr ho => exact Or.inr (ih ho)

theorem containsSub_append_left (s t pat : String) (h : containsSub s pat = true) :
    containsSub (s ++ t) pat = true := by
  unfold containsSub at h ⊢
  have he : (s ++ t).toList = s.toList ++ t.toList := by cases s; cases t; rfl
  rw [he]
  exact occursInChars_append_left _ _ _ h

theorem citesTooHigh_perWattTooHigh (p : ℚ) :
    containsSub (pricingIssueText (PricingIssue.perWattTooHigh p)) ("too high") = true := by
  show containsSub ((("Price per watt too high: ₦") ++ ratStr p) ++
    ("/watt (recommended: ₦1,200-₦2,800/watt)")) ("too high") = true
  apply containsSub_append_left
  apply containsSub_append_left
  decide

/-- C2: every recommendation the pricing validator accepts has price-per-watt
in [1000, 3000] NGN/W (at least 1200 once daily consumption exceeds 30 kWh)
and total amount in [max(1500000, totalWattage*1000), 12000000]; and a
recommendation totalling 30,000,000 for a 3000 W load is always rejected with
an issue whose text cites "too high". -/
theorem validatePricing_accepted_bounds :
    (∀ (p : Pricing) (tw dc : ℚ), (validatePricing p tw dc).valid = true →
      1000 ≤ p.totalAmount / tw ∧ p.totalAmount / tw ≤ 3000 ∧
      (30 < dc → 1200 ≤ p.totalAmount / tw) ∧
      max 1500000 (tw * 1000) ≤ p.totalAmount ∧ p.totalAmount ≤ 12000000) ∧
    (∀ (st v dc : ℚ),
      (validatePricing ⟨st, v, 30000000⟩ 3000 dc).valid = false ∧
      ∃ i ∈ (validatePricing ⟨st, v, 30000000⟩ 3000 dc).issues,
        containsSub (pricingIssueText i) ("too high") = true) := by
  constructor
  · intro p tw dc hv
    rw [validatePricing_valid_iff, pricingIssues_eq_nil] at hv
    obtain ⟨h1, h2, h3, h4, _, h6, _, _⟩ := hv
    exact ⟨not_lt.mp h2, not_lt.mp h1,
      fun hdc => not_lt.mp (fun hlt => h3 ⟨hlt, hdc⟩), not_lt.mp h6, not_lt.mp h4⟩
  · intro st v dc
    have hmem : PricingIssue.perWattTooHigh ((30000000 : ℚ) / 3000) ∈
        pricingIssues ⟨st, v, 30000000⟩ 3000 dc := by
      simp only [pricingIssues]
      apply List.mem_append_left
      apply List.mem_append_left
      apply List.mem_append_left
      apply List.mem_append_left
      apply List.mem_append_left
      apply List.mem_append_left
      apply List.mem_append_left
      rw [mem_iteSingleton]
      exact ⟨by norm_num, rfl⟩
    refine ⟨validatePricing_valid_false_of_mem hmem, ?_⟩
    refine ⟨PricingIssue.perWattTooHigh ((30000000 : ℚ) / 3000), ?_, ?_⟩
    · rw [validatePricing_issues]
      exact hmem
    · exact citesTooHigh_perWattTooHigh _

/-- C2 witness: a well-priced concrete recommendation (subtotal 5,000,000,
vat 375,000, total 5,375,000 for a 3000 W load at 10 kWh/day) is accepted and
therefore satisfies all the claimed bounds. -/
theorem validatePricing_accepted_bounds_witness :
    1000 ≤ (5375000 : ℚ) / 3000 ∧ (5375000 : ℚ) / 3000 ≤ 3000 ∧
    ((30 : ℚ) < 10 → 1200 ≤ (5375000 : ℚ) / 3000) ∧
    max 1500000 ((3000 : ℚ) * 1000) ≤ 5375000 ∧ (5375000 : ℚ) ≤ 12000000 := by
  have hv : (validatePricing ⟨5000000, 375000, 5375000⟩ 3000 10).valid = true := by
    rw [validatePricing_valid_iff, pricingIssues_eq_nil]
    norm_num [jsRound]
  exact validatePricing_accepted_bounds.1 ⟨5000000, 375000, 5375000⟩ 3000 10 hv

end Boosty

namespace Boosty

theorem vatIncorrect_mem_pricingIssues (p : Pricing) (tw dc : ℚ) :
    PricingIssue.vatIncorrect p.vat (jsRound (p.subtotal * 0.075)) ∈ pricingIssues p tw dc ↔
      1000 < |p.vat - (jsRound (p.subtotal * 0.075) : ℚ)| := by
  simp only [pricingIssues, List.mem_append, mem_iteSingleton]
  simp

theorem totalIncorrect_mem_pricingIssues (p : Pricing) (tw dc : ℚ) :
    PricingIssue.totalIncorrect p.totalAmount (p.subtotal + p.vat) ∈ pricingIssues p tw dc ↔
      1000 < |p.totalAmount - (p.subtotal + p.vat)| := by
  simp only [pricingIssues, List.mem_append, mem_iteSingleton]
  simp

/-- C3: the pricing validator flags a recommendation whenever the VAT is more
than 1000 away from `round(subtotal * 0.075)` or the total is more than 1000
away from `subtotal + vat`; each of the two issues is raised exactly when its
tolerance is exceeded; and subtotal 5,000,000 with vat 100,000 (expected VAT
375,000) is always flagged. -/
theorem validatePricing_vat_total_tolerance :
    ∀ (p : Pricing) (tw dc : ℚ),
      ((1000 < |p.vat - (jsRound (p.subtotal * 0.075) : ℚ)| ∨
        1000 < |p.totalAmount - (p.subtotal + p.vat)|) →
        (validatePricing p tw dc).valid = false) ∧
      (PricingIssue.vatIncorrect p.vat (jsRound (p.subtotal * 0.075)) ∈
          (validatePricing p tw dc).issues ↔
        1000 < |p.vat - (jsRound (p.subtotal * 0.075) : ℚ)|) ∧
      (PricingIssue.totalIncorrect p.totalAmount (p.subtotal + p.vat) ∈
          (validatePricing p tw dc).issues ↔
        1000 < |p.totalAmount - (p.subtotal + p.vat)|) ∧
      (∀ t : ℚ, (validatePricing ⟨5000000, 100000, t⟩ tw dc).valid = false) := by
  intro p tw dc
  refine ⟨?_, ?_, ?_, ?_⟩
  · intro h
    cases h with
    | inl hv =>
      exact validatePricing_valid_false_of_mem ((vatIncorrect_mem_pricingIssues p tw dc).mpr hv)
    | inr ht =>
      exact validatePricing_valid_false_of_mem ((totalIncorrect_mem_pricingIssues p tw dc).mpr ht)
  · rw [validatePricing_issues]
    exact vatIncorrect_mem_pricingIssues p tw dc
  · rw [validatePricing_issues]
    exact totalIncorrect_mem_pricingIssues p tw dc
  · intro t
    apply validatePricing_valid_false_of_mem
    exact (vatIncorrect_mem_pricingIssues ⟨5000000, 100000, t⟩ tw dc).mpr (by norm_num [jsRound])

/-- C3 witness: the tolerance theorem applied at subtotal 5,000,000,
vat 100,000, total 5,100,000 for a 3000 W, 10 kWh/day request. -/
theorem validatePricing_vat_total_tolerance_witness :
    (validatePricing ⟨5000000, 100000, 5100000⟩ 3000 10).valid = false := by
  exact (validatePricing_vat_total_tolerance ⟨5000000, 100000, 5100000⟩ 3000 10).1
    (Or.inl (by norm_num [jsRound]))

theorem validateRecommendation_def (rec : Recommendation) (tw dc : ℚ) :
    validateRecommendation rec tw dc =
      (if (componentIssues rec tw dc).length > 0
       then ⟨false, componentIssues rec tw dc, rec⟩
       else ⟨true, [], rec⟩) := rfl

theorem validateRecommendation_issues (rec : Recommendation) (tw dc : ℚ) :
    (validateRecommendation rec tw dc).issues = componentIssues rec tw dc := by
  rw [validateRecommendation_def]
  split
  · rfl
  · next h =>
    have h0 : (componentIssues rec tw dc).length = 0 := by omega
    rw [List.length_eq_zero] at h0
    simp [h0]

theorem validateRecommendation_valid_iff (rec : Recommendation) (tw dc : ℚ) :
    (validateRecommendation rec tw dc).valid = true ↔ componentIssues rec tw dc = [] := by
  rw [validateRecommendation_def]
  split
  · next h =>
    simp only [show (⟨false, componentIssues rec tw dc, rec⟩ : ComponentValidation).valid = false
      from rfl]
    constructor
    · intro hh; cases hh
    · intro hnil; rw [hnil] at h; simp at h
  · next h =>
    have h0 : (componentIssues rec tw dc).length = 0 := by omega
    rw [List.length_eq_zero] at h0
    simp [h0]

theorem validateRecommendation_valid_false_of_mem {i : ComponentIssue} {rec : Recommendation}
    {tw dc : ℚ} (h : i ∈ componentIssues rec tw dc) :
    (validateRecommendation rec tw dc).valid = false := by
  rw [validateRecommendation_def, if_pos (List.length_pos.mpr (List.ne_nil_of_mem h))]

theorem inverterIssuesOf_some (name : String) (tw : ℚ) (ip fp : List Char)
    (h : findKwMatch name.toList = some (ip, fp)) :
    inverterIssuesOf name tw =
      (if decimalValue ip fp * 1000 < tw * 1.2 then
        [ComponentIssue.inverterUndersized (decimalValue ip fp * 1000) tw]
       else if decimalValue ip fp * 1000 > tw * 2.0 then
        [ComponentIssue.inverterOversized (decimalValue ip fp * 1000) tw]
       else []) := by
  unfold inverterIssuesOf
  rw [h]

theorem inverterIssuesOf_none (name : String) (tw : ℚ)
    (h : findKwMatch name.toList = none) : inverterIssuesOf name tw = [] := by
  unfold inverterIssuesOf
  rw [h]

theorem batteryIssuesOf_eq (q dc : ℚ) :
    batteryIssuesOf q dc =
      (if q > ((⌈dc * 1.5 / 2.5⌉ : ℤ) : ℚ) then
        [ComponentIssue.tooManyBatteries q ⌈dc * 1.5 / 2.5⌉ dc] else []) ++
      (if q > 25 then [ComponentIssue.excessiveBatteries q] else []) := rfl

theorem panelIssuesOf_eq (q dc : ℚ) :
    panelIssuesOf q dc =
      (if q > ((⌈dc * 1.8 * 1000 / 400⌉ : ℤ) : ℚ) then
        [ComponentIssue.tooManyPanels q ⌈dc * 1.8 * 1000 / 400⌉ dc] else []) ++
      (if q > 30 then [ComponentIssue.excessivePanels q] else []) := rfl

theorem decimalValue_int (ds : List Char) : decimalValue ds [] = (digitsToNat ds : ℚ) := by
  unfold decimalValue
  simp [digitsToNat]

theorem mem_inverterIssuesOf {i : ComponentIssue} {name : String} {tw : ℚ}
    (h : i ∈ inverterIssuesOf name tw) :
    (∃ c w, i = ComponentIssue.inverterUndersized c w) ∨
    (∃ c w, i = ComponentIssue.inverterOversized c w) := by
  cases hf : findKwMatch name.toList with
  | none => rw [inverterIssuesOf_none name tw hf] at h; simp at h
  | some cap =>
    rw [inverterIssuesOf_some name tw cap.1 cap.2 (by rw [hf])] at h
    split at h
    · simp at h; exact Or.inl ⟨_, _, h⟩
    · split at h
      · simp at h; exact Or.inr ⟨_, _, h⟩
      · simp at h

theorem mem_batteryIssuesOf {i : ComponentIssue} {q dc : ℚ} (h : i ∈ batteryIssuesOf q dc) :
    i = ComponentIssue.tooManyBatteries q ⌈dc * 1.5 / 2.5⌉ dc ∨
    i = ComponentIssue.excessiveBatteries q := by
  rw [batteryIssuesOf_eq] at h
  rcases List.mem_append.mp h with h1 | h2
  · exact Or.inl (mem_iteSingleton.mp h1).2
  · exact Or.inr (mem_iteSingleton.mp h2).2

theorem mem_panelIssuesOf {i : ComponentIssue} {q dc : ℚ} (h : i ∈ panelIssuesOf q dc) :
    i = ComponentIssue.tooManyPanels q ⌈dc * 1.8 * 1000 / 400⌉ dc ∨
    i = ComponentIssue.excessivePanels q := by
  rw [panelIssuesOf_eq] at h
  rcases List.mem_append.mp h with h1 | h2
  · exact Or.inl (mem_iteSingleton.mp h1).2
  · exact Or.inr (mem_iteSingleton.mp h2).2

theorem tooManyPanels_mem_imp {q dc q2 : ℚ} {m : ℤ} {d : ℚ}
    (h : ComponentIssue.tooManyPanels q2 m d ∈ panelIssuesOf q dc) :
    q > ((⌈dc * 1.8 * 1000 / 400⌉ : ℤ) : ℚ) := by
  rw [panelIssuesOf_eq] at h
  rcases List.mem_append.mp h with h1 | h2
  · exact (mem_iteSingleton.mp h1).1
  · have := (mem_iteSingleton.mp h2).2
    simp at this

end Boosty

namespace Boosty

theorem panels40Rec_issues :
    componentIssues panels40Rec 3000 10 = [ComponentIssue.excessivePanels 40] := by
  unfold componentIssues
  rw [inverterIssuesOf_some _ 3000 ['5'] [] (by decide), batteryIssuesOf_eq, panelIssuesOf_eq,
    decimalValue_int]
  have h5 : digitsToNat ['5'] = 5 := by decide
  rw [h5]
  norm_num
  rfl

theorem inverter18Rec_issues : componentIssues inverter18Rec 10000 20 = [] := by
  unfold componentIssues
  rw [inverterIssuesOf_some _ 10000 ['1', '8'] [] (by decide), batteryIssuesOf_eq,
    panelIssuesOf_eq, decimalValue_int]
  have h18 : digitsToNat ['1', '8'] = 18 := by decide
  rw [h18]
  norm_num [inverter18Rec]

theorem fiveKvaRec_issues : componentIssues fiveKvaRec 10000 50 = [] := by
  unfold componentIssues
  rw [inverterIssuesOf_none _ 10000 (by decide), batteryIssuesOf_eq, panelIssuesOf_eq]
  norm_num [fiveKvaRec]

/-- C1 counterexample: for 40 panels at 10 kWh/day the issue list of the validator
is exactly the absolute-ceiling issue — the ratio-based issue is NOT raised,
because the ratio ceiling is ceil(10*1.8*1000/400) = 45 and 40 does not exceed
it, contrary to the claim that both issues are reported. -/
theorem validateRecommendation_forty_panels_only_absolute :
    (validateRecommendation panels40Rec 3000 10).issues = [ComponentIssue.excessivePanels 40] ∧
    (validateRecommendation panels40Rec 3000 10).valid = false ∧
    ¬ ((40 : ℚ) > ((⌈(10 : ℚ) * 1.8 * 1000 / 400⌉ : ℤ) : ℚ)) := by
  refine ⟨?_, ?_, by norm_num⟩
  · rw [validateRecommendation_issues, panels40Rec_issues]
  · rw [validateRecommendation_def, if_pos (by rw [panels40Rec_issues]; simp)]

/-- C1 amended: a recommendation with 40 solar panels for a 10 kWh/day load is
rejected, with the absolute-ceiling issue reported; the ratio-based ceiling is
45, which 40 does not exceed, so no ratio-based panel issue is reported. -/
theorem validateRecommendation_forty_panels_rejected :
    ∀ (rec : Recommendation) (tw : ℚ), rec.components.solarPanels.quantity = 40 →
      (validateRecommendation rec tw 10).valid = false ∧
      ComponentIssue.excessivePanels 40 ∈ (validateRecommendation rec tw 10).issues ∧
      ∀ (q : ℚ) (m : ℤ) (d : ℚ),
        ComponentIssue.tooManyPanels q m d ∉ (validateRecommendation rec tw 10).issues := by
  intro rec tw h
  have hmem : ComponentIssue.excessivePanels 40 ∈ componentIssues rec tw 10 := by
    unfold componentIssues
    apply List.mem_append_right
    rw [h, panelIssuesOf_eq]
    apply List.mem_append_right
    rw [mem_iteSingleton]
    exact ⟨by norm_num, rfl⟩
  refine ⟨validateRecommendation_valid_false_of_mem hmem, ?_, ?_⟩
  · rw [validateRecommendation_issues]
    exact hmem
  · intro q m d hmem2
    rw [validateRecommendation_issues] at hmem2
    unfold componentIssues at hmem2
    rcases List.mem_append.mp hmem2 with h1 | h2
    · rcases List.mem_append.mp h1 with ha | hb
      · rcases mem_inverterIssuesOf ha with ⟨c, w, he⟩ | ⟨c, w, he⟩ <;> simp at he
      · rcases mem_batteryIssuesOf hb with he | he <;> simp at he
    · rw [h] at h2
      have := tooManyPanels_mem_imp h2
      norm_num at this

/-- C1 witness: the amended statement applied to the concrete 40-panel
recommendation at a 3000 W load. -/
theorem validateRecommendation_forty_panels_rejected_witness :
    (validateRecommendation panels40Rec 3000 10).valid = false ∧
    ComponentIssue.excessivePanels 40 ∈ (validateRecommendation panels40Rec 3000 10).issues := by
  have h := validateRecommendation_forty_panels_rejected panels40Rec 3000 rfl
  exact ⟨h.1, h.2.1⟩

/-- C4 counterexample: a recommendation whose inverter name parses as 18 kW —
above the claimed 15 kW hard maximum — passes component validation for a
10000 W load at 20 kWh/day: no absolute 15 kW inverter cap is enforced. -/
theorem validator_no_fifteen_kw_cap :
    (validateRecommendation inverter18Rec 10000 20).valid = true ∧
    findKwMatch (inverter18Rec.components.inverter.name.toList) = some (['1', '8'], []) ∧
    decimalValue ['1', '8'] [] * 1000 > 15000 := by
  refine ⟨?_, by decide, ?_⟩
  · rw [validateRecommendation_valid_iff]
    exact inverter18Rec_issues
  · rw [decimalValue_int]
    have h18 : digitsToNat ['1', '8'] = 18 := by decide
    rw [h18]
    norm_num

/-- C4 amended: the suggested quantities in the prompt are min(ceil(dc*1.2/3.5), 16)
batteries and min(ceil(dc*1.5*1000/450), 20) panels; the validator enforces
hard maxima of 25 batteries and 30 panels; but no absolute 15 kW inverter cap
is enforced — the 15 kW figure appears only in the prompt text, and an 18 kW
inverter for a 10000 W load passes validation. -/
theorem sizing_caps :
    (∀ dc : ℚ, (promptQuantities dc).batteryQuantity = min ⌈dc * 1.2 / 3.5⌉ 16 ∧
      (promptQuantities dc).panelQuantity = min ⌈dc * 1.5 * 1000 / 450⌉ 20 ∧
      (promptQuantities dc).batteryQuantity ≤ 16 ∧ (promptQuantities dc).panelQuantity ≤ 20) ∧
    (∀ (rec : Recommendation) (tw dc : ℚ), 25 < rec.components.battery.quantity →
      (validateRecommendation rec tw dc).valid = false) ∧
    (∀ (rec : Recommendation) (tw dc : ℚ), 30 < rec.components.solarPanels.quantity →
      (validateRecommendation rec tw dc).valid = false) ∧
    (validateRecommendation inverter18Rec 10000 20).valid = true := by
  refine ⟨?_, ?_, ?_, ?_⟩
  · intro dc
    exact ⟨rfl, rfl, min_le_right _ _, min_le_right _ _⟩
  · intro rec tw dc h
    apply validateRecommendation_valid_false_of_mem
    unfold componentIssues
    apply List.mem_append_left
    apply List.mem_append_right
    rw [batteryIssuesOf_eq]
    apply List.mem_append_right
    rw [mem_iteSingleton]
    exact ⟨h, rfl⟩
  · intro rec tw dc h
    apply validateRecommendation_valid_false_of_mem
    unfold componentIssues
    apply List.mem_append_right
    rw [panelIssuesOf_eq]
    apply List.mem_append_right
    rw [mem_iteSingleton]
    exact ⟨h, rfl⟩
  · rw [validateRecommendation_valid_iff]
    exact inverter18Rec_issues

/-- C4 witness: the battery hard maximum applied to a recommendation with 26
batteries. -/
theorem sizing_caps_witness :
    (validateRecommendation ⟨⟨⟨("inv"), 1⟩, ⟨("bat"), 26⟩, ⟨("pan"), 5⟩⟩⟩ 1000 10).valid
      = false := by
  exact sizing_caps.2.1 ⟨⟨⟨("inv"), 1⟩, ⟨("bat"), 26⟩, ⟨("pan"), 5⟩⟩⟩ 1000 10 (by norm_num)

/-- C10: when the inverter name contains no digits-then-kW pattern the
validator performs no inverter sizing check at all — the result does not
depend on the total wattage and contains no inverter issue — and in
particular a "5KVA" inverter (5000 W nominal) passes validation for a
10000 W load. -/
theorem inverter_check_skipped_without_kw :
    (∀ (rec : Recommendation) (tw tw2 dc : ℚ),
      findKwMatch rec.components.inverter.name.toList = none →
      validateRecommendation rec tw dc = validateRecommendation rec tw2 dc ∧
      (∀ c w, ComponentIssue.inverterUndersized c w ∉ (validateRecommendation rec tw dc).issues) ∧
      (∀ c w, ComponentIssue.inverterOversized c w ∉ (validateRecommendation rec tw dc).issues)) ∧
    (findKwMatch (fiveKvaRec.components.inverter.name.toList) = none ∧
      (validateRecommendation fiveKvaRec 10000 50).valid = true) := by
  constructor
  · intro rec tw tw2 dc hm
    have hci : ∀ tw3 : ℚ, componentIssues rec tw3 dc =
        batteryIssuesOf rec.components.battery.quantity dc ++
        panelIssuesOf rec.components.solarPanels.quantity dc := by
      intro tw3
      unfold componentIssues
      rw [inverterIssuesOf_none _ tw3 hm, List.nil_append]
    refine ⟨?_, ?_, ?_⟩
    · rw [validateRecommendation_def, validateRecommendation_def, hci tw, hci tw2]
    · intro c w hmem
      rw [validateRecommendation_issues, hci tw] at hmem
      rcases List.mem_append.mp hmem with h1 | h2
      · rcases mem_batteryIssuesOf h1 with he | he <;> simp at he
      · rcases mem_panelIssuesOf h2 with he | he <;> simp at he
    · intro c w hmem
      rw [validateRecommendation_issues, hci tw] at hmem
      rcases List.mem_append.mp hmem with h1 | h2
      · rcases mem_batteryIssuesOf h1 with he | he <;> simp at he
      · rcases mem_panelIssuesOf h2 with he | he <;> simp at he
  · refine ⟨by decide, ?_⟩
    rw [validateRecommendation_valid_iff]
    exact fiveKvaRec_issues

/-- C10 witness: with the KVA-named inverter the validation outcome is
identical for a 10000 W and a 5000 W load. -/
theorem inverter_check_skipped_without_kw_witness :
    validateRecommendation fiveKvaRec 10000 50 = validateRecommendation fiveKvaRec 5000 50 := by
  exact (inverter_check_skipped_without_kw.1 fiveKvaRec 10000 5000 50 (by decide)).1

end Boosty

namespace Boosty

theorem enhance_preserves_core (base : ResolvedLocation) (g : Option NominatimAddress) :
    (enhanceLocationWithAddress base g).country = base.country ∧
    (enhanceLocationWithAddress base g).region = base.region ∧
    (enhanceLocationWithAddress base g).city = base.city ∧
    (enhanceLocationWithAddress base g).lat = base.lat ∧
    (enhanceLocationWithAddress base g).lon = base.lon := by
  unfold enhanceLocationWithAddress
  split
  · exact ⟨rfl, rfl, rfl, rfl, rfl⟩
  · split
    · cases g with
      | some addr => exact ⟨rfl, rfl, rfl, rfl, rfl⟩
      | none => unfold estimatedEnrichment; exact ⟨rfl, rfl, rfl, rfl, rfl⟩
    · unfold estimatedEnrichment; exact ⟨rfl, rfl, rfl, rfl, rfl⟩

/-- C8: with no body location, no stored address with coordinates, and a
loopback caller IP, the location resolver always returns the fixed default —
country Nigeria, region Lagos, city Lagos, lat 6.5244, lon 3.3792 — whatever
the outcomes of the external geocoding, database and IP-lookup calls. -/
theorem getLocationData_loopback_default :
    ∀ (req : LocationRequest) (o : LocationOracles),
      req.bodyLocation = none → storedCoordsOf req o = none →
      (req.ip = ("127.0.0.1") ∨ req.ip = ("::1")) →
      (getLocationData req o).country = ("Nigeria") ∧
      (getLocationData req o).region = ("Lagos") ∧
      (getLocationData req o).city = ("Lagos") ∧
      (getLocationData req o).lat = 6.5244 ∧
      (getLocationData req o).lon = 3.3792 := by
  intro req o hbody hstored hip
  have hg : getLocationData req o = ipPhase req o := by
    unfold getLocationData
    rw [hbody]
    cases hu : req.authenticatedUserId with
    | none => rfl
    | some uid =>
      cases hdb : o.db with
      | found addrOpt =>
        cases addrOpt with
        | none => rfl
        | some addr =>
          cases hc : addr.coordinates with
          | none => dsimp only; rw [hc]
          | some c =>
            exfalso
            unfold storedCoordsOf at hstored
            rw [hu, hdb] at hstored
            simp [hc] at hstored
      | missing => rfl
      | failure => rfl
  have hipph : ipPhase req o = enhanceLocationWithAddress defaultLagosLocation o.geocode := by
    unfold ipPhase
    rcases hip with h | h
    · rw [if_pos (Or.inl h)]
    · rw [if_pos (Or.inr (Or.inl h))]
  rw [hg, hipph]
  have h5 := enhance_preserves_core defaultLagosLocation o.geocode
  exact ⟨h5.1.trans rfl, h5.2.1.trans rfl, h5.2.2.1.trans rfl,
    h5.2.2.2.1.trans rfl, h5.2.2.2.2.trans rfl⟩

/-- C8 witness: an anonymous loopback request with failing external services
resolves to the Lagos default. -/
theorem getLocationData_loopback_default_witness :
    (getLocationData ⟨none, none, ("127.0.0.1")⟩ ⟨DbLookup.missing, none, none⟩).country
      = ("Nigeria") ∧
    (getLocationData ⟨none, none, ("127.0.0.1")⟩ ⟨DbLookup.missing, none, none⟩).lat
      = 6.5244 := by
  have h := getLocationData_loopback_default ⟨none, none, ("127.0.0.1")⟩
    ⟨DbLookup.missing, none, none⟩ rfl rfl (Or.inl rfl)
  exact ⟨h.1, h.2.2.2.1⟩

/-- C9: a request whose items array contains an entry with any falsy field —
including the numeric value 0, admissible for day/night hours in the data
model — is answered with status 400 and the incomplete-item message before
any location, weather or AI work happens (no effects, whatever the rest of
the handler would do). -/
theorem recommendPost_rejects_falsy_item :
    ∀ (items : List RawItem) (i : RawItem) (rest : List RawItem → RouteOutcome),
      i ∈ items →
      (i.nameOfItem.truthy = false ∨ i.quantity.truthy = false ∨ i.wattage.truthy = false ∨
       i.dayHours.truthy = false ∨ i.nightHours.truthy = false) →
      recommendPost (BodyItems.many items) rest = ⟨400, itemIncompleteMsg, []⟩ ∧
      JSVal.truthy (JSVal.num 0) = false ∧
      hoursInModelRange 0 = true := by
  intro items i rest hmem hfalsy
  have hic : itemComplete i = false := by
    unfold itemComplete
    rcases hfalsy with h | h | h | h | h <;> rw [h] <;> simp
  have hne : items ≠ [] := List.ne_nil_of_mem hmem
  have hall : ¬ (items.all itemComplete = true) := by
    rw [List.all_eq_true]
    intro hallt
    have hcontra := hallt i hmem
    rw [hic] at hcontra
    cases hcontra
  refine ⟨?_, by simp [JSVal.truthy], by norm_num [hoursInModelRange]⟩
  have hstep : recommendPost (BodyItems.many items) rest =
      (if items.isEmpty then ⟨400, itemsRequiredMsg, []⟩ else recommendPostItems items rest) := rfl
  rw [hstep, if_neg (by simp [List.isEmpty_iff, hne])]
  have hstep2 : recommendPostItems items rest =
      (if items.all itemComplete then rest items else ⟨400, itemIncompleteMsg, []⟩) := rfl
  rw [hstep2, if_neg hall]

/-- C9 witness: an item with `dayHours = 0` (in range for the data model) is
rejected with 400 and no external effect, for an arbitrary continuation that
would have performed a location lookup. -/
theorem recommendPost_rejects_falsy_item_witness :
    recommendPost
      (BodyItems.many [⟨JSVal.str ("Fan"), JSVal.num 2, JSVal.num 75, JSVal.num 0, JSVal.num 6⟩])
      (fun _ => ⟨200, (""), [Effect.locationLookup]⟩) = ⟨400, itemIncompleteMsg, []⟩ := by
  exact (recommendPost_rejects_falsy_item
    [⟨JSVal.str ("Fan"), JSVal.num 2, JSVal.num 75, JSVal.num 0, JSVal.num 6⟩]
    ⟨JSVal.str ("Fan"), JSVal.num 2, JSVal.num 75, JSVal.num 0, JSVal.num 6⟩
    (fun _ => ⟨200, (""), [Effect.locationLookup]⟩)
    (List.mem_singleton.mpr rfl)
    (Or.inr (Or.inr (Or.inr (Or.inl (by simp [JSVal.truthy])))))).1

end Boosty
